import Mathlib

/-!
Verification of the WebGL direct-volume-rendering demo.

The development embeds the two source files of the repository:

* the fragment shader of the integration pass (functions sampleVolume,
  integrateVolume and the shader main, from the inline shader scripts of the
  demo page), and
* the host-side renderer (VolumeCubeDomain, ShaderProgram / initGL, and the
  per-frame draw procedure) from js/volumerenderer.js.

Shader floating-point values are modelled over a linear ordered field with a
floor structure (instantiated at the rationals for concrete evaluation and at
the reals where the code uses exp, pow and sqrt).  The volume texture is an
arbitrary function from UV coordinates to scalar values.
-/

/-- Three-component vector, mirroring the GLSL vec3 values of the shaders. -/
structure Vec3 (K : Type) where
  x : K
  y : K
  z : K

/-- Four-component color value, mirroring GLSL vec4 colors (rgba). -/
structure RGBA where
  r : ℝ
  g : ℝ
  b : ℝ
  a : ℝ

/-- Uniform variables of the volume integration shader, as declared in the
shader source: uNumSlices and uSlicesPerRow are GLSL ints, the normalized
slice footprint is a pair of floats. -/
structure VolumeUniforms (K : Type) where
  uNumSlices : ℤ
  uSlicesPerRow : ℤ
  uSliceWidth : K
  uSliceHeight : K

/-- GLSL mod(x, y) = x - y * floor(x / y). -/
def glslMod {K : Type} [LinearOrderedField K] [FloorRing K] (x y : K) : K :=
  x - y * (⌊x / y⌋ : ℤ)

/-- GLSL int(x): conversion of a float to an int truncates toward zero. -/
def glslInt {K : Type} [LinearOrderedField K] [FloorRing K] (x : K) : ℤ :=
  if 0 ≤ x then ⌊x⌋ else -⌊-x⌋

/-- Tile origin of a slice inside the atlas, as computed in sampleVolume:
column = mod(slice, float(uSlicesPerRow)), row = float(int(slice) / uSlicesPerRow)
with GLSL integer division (truncation toward zero). -/
def sliceTileUV {K : Type} [LinearOrderedField K] [FloorRing K]
    (u : VolumeUniforms K) (slice : K) : K × K :=
  (glslMod slice (u.uSlicesPerRow : K), ((Int.tdiv (glslInt slice) u.uSlicesPerRow : ℤ) : K))

/-- Final atlas UV for one slice: (tileOrigin + pos.xy) * (uSliceWidth, uSliceHeight). -/
def sliceSampleUV {K : Type} [LinearOrderedField K] [FloorRing K]
    (u : VolumeUniforms K) (pos : Vec3 K) (slice : K) : K × K :=
  (((sliceTileUV u slice).1 + pos.x) * u.uSliceWidth,
   ((sliceTileUV u slice).2 + pos.y) * u.uSliceHeight)

/-- The sampleVolume function of the integration shader.  The 2D texture fetch
(red channel) is modelled by an arbitrary function tex on UV coordinates. -/
def sampleVolume {K : Type} [LinearOrderedField K] [FloorRing K]
    (u : VolumeUniforms K) (tex : K × K → K) (pos : Vec3 K) : K :=
  let sliceBelow : K := ((⌊pos.z * ((u.uNumSlices - 1 : ℤ) : K)⌋ : ℤ) : K)
  let sliceAbove : K := ((⌈pos.z * ((u.uNumSlices - 1 : ℤ) : K)⌉ : ℤ) : K)
  let valueBelow := tex (sliceSampleUV u pos sliceBelow)
  if sliceBelow = sliceAbove then
    valueBelow
  else
    let valueAbove := tex (sliceSampleUV u pos sliceAbove)
    let a := sliceAbove - pos.z * ((u.uNumSlices - 1 : ℤ) : K)
    valueAbove * (1 - a) + valueBelow * a

/-- GLSL length of a vec3. -/
noncomputable def glslLength (v : Vec3 ℝ) : ℝ :=
  Real.sqrt (v.x ^ 2 + v.y ^ 2 + v.z ^ 2)

/-- Transfer-function absorption of integrateVolume:
pow(sample, 1.1) with values below the 0.05 cutoff clamped to 0. -/
noncomputable def tfAbsorbtion (sample : ℝ) : ℝ :=
  if sample ^ (1.1 : ℝ) < 0.05 then 0 else sample ^ (1.1 : ℝ)

/-- Per-step compositing opacity of integrateVolume:
1.0 - exp(-step * tfAbsorbtion * 40.0) with step = 0.01. -/
noncomputable def tfOpacity (sample : ℝ) : ℝ :=
  1 - Real.exp (-(0.01 : ℝ) * tfAbsorbtion sample * 40)

/-- Sample color of integrateVolume: vec3(sample*1.0), with the red channel
forced to 0.6 above the 0.35 threshold and a 0.1 blue boost below it. -/
noncomputable def transferColor (sample : ℝ) : Vec3 ℝ :=
  if sample > 0.35 then
    ⟨0.6, sample * 1.0, sample * 1.0⟩
  else
    ⟨sample * 1.0, sample * 1.0, sample * 1.0 + 0.1⟩

/-- Mutable state of the integration loop: the accumulated color and the
depth travelled along the ray. -/
structure IntegrateState where
  color : RGBA
  depth : ℝ

/-- Scalar volume sample taken at the current loop position
entryPoint + vector * vec3(depth). -/
noncomputable def stepSample (u : VolumeUniforms ℝ) (tex : ℝ × ℝ → ℝ)
    (entryPoint vector : Vec3 ℝ) (st : IntegrateState) : ℝ :=
  sampleVolume u tex
    ⟨entryPoint.x + vector.x * st.depth,
     entryPoint.y + vector.y * st.depth,
     entryPoint.z + vector.z * st.depth⟩

/-- One body execution of the integration loop: sample, transfer function,
front-to-back composite, advance depth by the step size. -/
noncomputable def integrateStep (u : VolumeUniforms ℝ) (tex : ℝ × ℝ → ℝ)
    (entryPoint vector : Vec3 ℝ) (st : IntegrateState) : IntegrateState :=
  let step : ℝ := 0.01
  let sample := stepSample u tex entryPoint vector st
  let sampleColor := transferColor sample
  { color :=
      { r := sampleColor.x * tfOpacity sample * (1 - st.color.a) + st.color.r
        g := sampleColor.y * tfOpacity sample * (1 - st.color.a) + st.color.g
        b := sampleColor.z * tfOpacity sample * (1 - st.color.a) + st.color.b
        a := tfOpacity sample * (1 - st.color.a) + st.color.a }
    depth := st.depth + step }

/-- The bounded integration loop: for (int i = 0; i < fuel; ++i), breaking as
soon as depth > thickness or color.a > 0.98. -/
noncomputable def integrateLoop (u : VolumeUniforms ℝ) (tex : ℝ × ℝ → ℝ)
    (entryPoint vector : Vec3 ℝ) (thickness : ℝ) :
    ℕ → IntegrateState → IntegrateState
  | 0, st => st
  | n + 1, st =>
    if st.depth > thickness ∨ st.color.a > 0.98 then st
    else integrateLoop u tex entryPoint vector thickness n
      (integrateStep u tex entryPoint vector st)

/-- Number of loop bodies actually executed by the bounded integration loop. -/
noncomputable def loopSteps (u : VolumeUniforms ℝ) (tex : ℝ × ℝ → ℝ)
    (entryPoint vector : Vec3 ℝ) (thickness : ℝ) :
    ℕ → IntegrateState → ℕ
  | 0, _ => 0
  | n + 1, st =>
    if st.depth > thickness ∨ st.color.a > 0.98 then 0
    else loopSteps u tex entryPoint vector thickness n
      (integrateStep u tex entryPoint vector st) + 1

/-- Initial loop state of integrateVolume: transparent black, depth 0. -/
def initialIntegrateState : IntegrateState :=
  { color := { r := 0, g := 0, b := 0, a := 0 }, depth := 0 }

/-- The integrateVolume function of the shader: march from entryPoint toward
exitPoint in steps of 0.01, with a hard cap of 10000 iterations. -/
noncomputable def integrateVolume (u : VolumeUniforms ℝ) (tex : ℝ × ℝ → ℝ)
    (entryPoint exitPoint : Vec3 ℝ) : RGBA :=
  let vector : Vec3 ℝ :=
    ⟨exitPoint.x - entryPoint.x, exitPoint.y - entryPoint.y, exitPoint.z - entryPoint.z⟩
  let thickness := glslLength vector
  let nvector : Vec3 ℝ := ⟨vector.x / thickness, vector.y / thickness, vector.z / thickness⟩
  (integrateLoop u tex entryPoint nvector thickness 10000 initialIntegrateState).color

/-- Shader main of the integration pass: the entry and exit points are the
vec4 values sampled from the two geometry render targets; rays whose entry or
exit alpha is below 0.1 output vec4(0).  (The shader also computes two unused
locals, a thickness and an absorption factor; they do not influence the
output and are omitted here as dead code.) -/
noncomputable def volumeFsMain (u : VolumeUniforms ℝ) (tex : ℝ × ℝ → ℝ)
    (entryPoint exitPoint : RGBA) : RGBA :=
  if entryPoint.a < 0.1 ∨ exitPoint.a < 0.1 then
    { r := 0, g := 0, b := 0, a := 0 }
  else
    integrateVolume u tex
      ⟨entryPoint.r, entryPoint.g, entryPoint.b⟩
      ⟨exitPoint.r, exitPoint.g, exitPoint.b⟩

/-- Shader programs created by the renderer. -/
inductive ProgId where
  | entryExitPoints
  | volume
deriving DecidableEq

/-- Offscreen framebuffers of the renderer. -/
inductive FBId where
  | exitpoints
  | entrypoints
deriving DecidableEq

/-- Geometry drawn by a pass: the domain cube or the fullscreen quad. -/
inductive PassGeometry where
  | domainCube
  | viewportQuad
deriving DecidableEq

/-- Depth comparison functions used by draw(). -/
inductive DepthComparison where
  | less
  | greater
deriving DecidableEq

/-- Abstract GL commands issued by VolumeRenderer.draw, parameterized by the
type M of matrix values.  setMatrixUniforms models the single _setMatrices
call (it assigns the projection and model-view uniforms of the current
program); bindPassInputTextures models the texture bindings and sampler
uniform assignments of the integration pass. -/
inductive GLCmd (M : Type) where
  | useProgram : ProgId → GLCmd M
  | setMatrixUniforms : M → M → GLCmd M
  | setClearColor : GLCmd M
  | enableDepthTest : GLCmd M
  | attachFramebuffer : FBId → GLCmd M
  | detachFramebuffer : GLCmd M
  | setDepthFunc : DepthComparison → GLCmd M
  | setClearDepth : ℤ → GLCmd M
  | clearBuffers : GLCmd M
  | bindPassInputTextures : GLCmd M
  | drawGeometry : PassGeometry → GLCmd M

/-- The command trace of one VolumeRenderer.draw call, in source order. -/
def drawCommands {M : Type} (projection modelView : M) : List (GLCmd M) :=
  [GLCmd.useProgram ProgId.entryExitPoints,
   GLCmd.setMatrixUniforms projection modelView,
   GLCmd.setClearColor,
   GLCmd.enableDepthTest,
   GLCmd.attachFramebuffer FBId.exitpoints,
   GLCmd.setDepthFunc DepthComparison.greater,
   GLCmd.setClearDepth (-1),
   GLCmd.clearBuffers,
   GLCmd.drawGeometry PassGeometry.domainCube,
   GLCmd.detachFramebuffer,
   GLCmd.setDepthFunc DepthComparison.less,
   GLCmd.setClearDepth 1,
   GLCmd.attachFramebuffer FBId.entrypoints,
   GLCmd.clearBuffers,
   GLCmd.drawGeometry PassGeometry.domainCube,
   GLCmd.detachFramebuffer,
   GLCmd.useProgram ProgId.volume,
   GLCmd.setDepthFunc DepthComparison.greater,
   GLCmd.setClearDepth (-1),
   GLCmd.clearBuffers,
   GLCmd.bindPassInputTextures,
   GLCmd.drawGeometry PassGeometry.viewportQuad]

/-- GL context state tracked while interpreting a command trace. -/
structure GLState (M : Type) where
  currentProgram : Option ProgId
  boundFramebuffer : Option FBId
  depthComparison : Option DepthComparison
  clearDepthValue : Option ℤ
  entryExitMatrices : Option (M × M)
  volumeMatrices : Option (M × M)

/-- Fresh GL context state at the start of a frame. -/
def initialGLState {M : Type} : GLState M :=
  { currentProgram := none, boundFramebuffer := none, depthComparison := none,
    clearDepthValue := none, entryExitMatrices := none, volumeMatrices := none }

/-- Configuration under which one draw call executed: the geometry drawn, the
render target, the depth comparison, the depth clear value, the active program
and the matrix uniforms it held. -/
structure PassRecord (M : Type) where
  geometry : PassGeometry
  target : Option FBId
  depthComparison : Option DepthComparison
  clearDepthValue : Option ℤ
  program : Option ProgId
  matrices : Option (M × M)

/-- State transition of a single GL command. -/
def applyCmd {M : Type} (st : GLState M) : GLCmd M → GLState M
  | GLCmd.useProgram p => { st with currentProgram := some p }
  | GLCmd.setMatrixUniforms proj mv =>
    match st.currentProgram with
    | some ProgId.entryExitPoints => { st with entryExitMatrices := some (proj, mv) }
    | some ProgId.volume => { st with volumeMatrices := some (proj, mv) }
    | none => st
  | GLCmd.attachFramebuffer f => { st with boundFramebuffer := some f }
  | GLCmd.detachFramebuffer => { st with boundFramebuffer := none }
  | GLCmd.setDepthFunc d => { st with depthComparison := some d }
  | GLCmd.setClearDepth v => { st with clearDepthValue := some v }
  | _ => st

/-- Matrix uniforms of the currently active program. -/
def currentMatrices {M : Type} (st : GLState M) : Option (M × M) :=
  match st.currentProgram with
  | some ProgId.entryExitPoints => st.entryExitMatrices
  | some ProgId.volume => st.volumeMatrices
  | none => none

/-- Interpret a command trace, producing one PassRecord per draw command. -/
def recordPasses {M : Type} : GLState M → List (GLCmd M) → List (PassRecord M)
  | _, [] => []
  | st, c :: cs =>
    match c with
    | GLCmd.drawGeometry g =>
      { geometry := g, target := st.boundFramebuffer,
        depthComparison := st.depthComparison, clearDepthValue := st.clearDepthValue,
        program := st.currentProgram, matrices := currentMatrices st }
        :: recordPasses (applyCmd st (GLCmd.drawGeometry g)) cs
    | c => recordPasses (applyCmd st c) cs

/-- Passes executed by one frame of VolumeRenderer.draw. -/
def framePasses {M : Type} (projection modelView : M) : List (PassRecord M) :=
  recordPasses initialGLState (drawCommands projection modelView)

/-- Cube extents of VolumeCubeDomain: width 1, height and depth derived from
the slice dimensions assuming isotropic resolution. -/
structure CubeDimensions where
  w : ℚ
  h : ℚ
  d : ℚ
deriving DecidableEq

/-- The cubeDimensions computation of the VolumeCubeDomain constructor. -/
def cubeDimensions (sliceWidth sliceHeight slices : ℚ) : CubeDimensions :=
  { w := 1.0, h := sliceHeight / sliceWidth, d := slices / sliceWidth }

/-- The normalized slice width uniform set once the atlas image has loaded:
sliceWidth / texture.image.width. -/
def normalizedSliceWidth (sliceWidth atlasImageWidth : ℚ) : ℚ :=
  sliceWidth / atlasImageWidth

/-- The normalized slice height uniform set once the atlas image has loaded:
sliceHeight / texture.image.height. -/
def normalizedSliceHeight (sliceHeight atlasImageHeight : ℚ) : ℚ :=
  sliceHeight / atlasImageHeight

/-- Metadata held by a constructed VolumeCubeDomain. -/
structure VolumeCubeDomainData where
  sliceWidth : ℚ
  sliceHeight : ℚ
  slices : ℚ
  slicesPerRow : ℚ
  cubeDimensions : CubeDimensions
deriving DecidableEq

/-- The VolumeCubeDomain constructor: it stores its four parameters and the
derived cube extents.  The source performs no validation of the parameters. -/
def VolumeCubeDomain.make (sliceWidth sliceHeight slices slicesPerRow : ℚ) :
    VolumeCubeDomainData :=
  { sliceWidth := sliceWidth, sliceHeight := sliceHeight, slices := slices,
    slicesPerRow := slicesPerRow,
    cubeDimensions := cubeDimensions sliceWidth sliceHeight slices }

/-- The shader script elements of the demo page. -/
inductive ShaderId where
  | entryExitPointsVS
  | entryExitPointsFS
  | volumeVS
  | volumeFS
deriving DecidableEq

/-- Diagnostics surfaced through alert() by ShaderProgram. -/
inductive GLAlert where
  | compileFailed : ShaderId → GLAlert
  | linkFailed : GLAlert
deriving DecidableEq

/-- Host environment observed by initGL: whether a WebGL context can be
obtained, whether the float-texture extension exists, and which shader
compilations and program links succeed. -/
structure WebGLEnv where
  contextAvailable : Bool
  floatTextureExtension : Bool
  compiles : ShaderId → Bool
  links : ShaderId → ShaderId → Bool

/-- Result of a ShaderProgram construction: failed shader compilations leave a
null shader, a failed link leaves the program unlinked; every failure is
reported through an alert, and construction always runs to completion
(it never throws). -/
structure ShaderProgramState where
  vertexShader : Option ShaderId
  fragmentShader : Option ShaderId
  linked : Bool
  alerts : List GLAlert

/-- The ShaderProgram constructor of the renderer. -/
def ShaderProgram.make (env : WebGLEnv) (vsId fsId : ShaderId) : ShaderProgramState :=
  { vertexShader := if env.compiles vsId then some vsId else none
    fragmentShader := if env.compiles fsId then some fsId else none
    linked := env.links vsId fsId
    alerts :=
      (if env.compiles vsId then [] else [GLAlert.compileFailed vsId])
        ++ (if env.compiles fsId then [] else [GLAlert.compileFailed fsId])
        ++ (if env.links vsId fsId then [] else [GLAlert.linkFailed]) }

/-- The _initShaders step: construct the two shader programs. -/
def initShaders (env : WebGLEnv) : List ShaderProgramState :=
  [ShaderProgram.make env ShaderId.entryExitPointsVS ShaderId.entryExitPointsFS,
   ShaderProgram.make env ShaderId.volumeVS ShaderId.volumeFS]

/-- Conditions that throw inside the try block of initGL. -/
inductive InitError where
  | noContext
  | noFloatTextures
deriving DecidableEq

/-- Body of the try block of initGL: obtaining the context and the
float-texture extension may throw; _initShaders, _initFramebuffers and the
quad construction contain no throwing statement and always complete. -/
def initGLBody (env : WebGLEnv) : Except InitError (List ShaderProgramState) :=
  if ¬env.contextAvailable then Except.error InitError.noContext
  else if ¬env.floatTextureExtension then Except.error InitError.noFloatTextures
  else Except.ok (initShaders env)

/-- The initGL function: a thrown error is caught, the context is cleared and
false is returned; otherwise the context is kept and true is returned. -/
def initGL (env : WebGLEnv) : Bool :=
  match initGLBody env with
  | Except.ok _ => true
  | Except.error _ => false

/-- Concrete atlas layout used for evaluation: 4 slices, 2 per row, each
slice an eighth of the atlas in both directions. -/
def atlasUniformsQ : VolumeUniforms ℚ := ⟨4, 2, 1/8, 1/8⟩

/-- Concrete texture used for evaluation, distinguishing UV positions. -/
def atlasTexQ : ℚ × ℚ → ℚ := fun p => p.1 + 2 * p.2

/-- Small concrete uniforms for evaluating the real-valued integrator. -/
noncomputable def probeUniformsR : VolumeUniforms ℝ := ⟨2, 1, 1, 1⟩

/-- Constant half-intensity volume texture. -/
noncomputable def halfTexR : ℝ × ℝ → ℝ := fun _ => 0.5

/-- Constant zero volume texture. -/
noncomputable def zeroTexR : ℝ × ℝ → ℝ := fun _ => 0

/-- Constant full-intensity volume texture. -/
noncomputable def oneTexR : ℝ × ℝ → ℝ := fun _ => 1

/-- Loop state whose accumulated alpha is exactly 0.98. -/
noncomputable def nearOpaqueState : IntegrateState := ⟨⟨0, 0, 0, 0.98⟩, 0⟩

/-- Loop state whose accumulated alpha strictly exceeds 0.98. -/
noncomputable def overOpaqueState : IntegrateState := ⟨⟨0, 0, 0, 0.99⟩, 0⟩

/-- Origin vector. -/
noncomputable def zeroVec3R : Vec3 ℝ := ⟨0, 0, 0⟩

/-- Unit vector along x. -/
noncomputable def unitXVec3R : Vec3 ℝ := ⟨1, 0, 0⟩

/-- Entry-point sample of a ray that missed the proxy cube (alpha 0). -/
noncomputable def missEntry : RGBA := ⟨0, 0, 0, 0⟩

/-- Exit-point sample of a ray that hit the proxy cube (alpha 1). -/
noncomputable def hitExit : RGBA := ⟨1, 1, 1, 1⟩

/-- A second set of uniforms, used to vary the volume inputs. -/
noncomputable def probeUniformsR2 : VolumeUniforms ℝ := ⟨3, 2, 1/2, 1/2⟩

/-- GLSL mod is nonnegative for a positive modulus. -/
theorem glslMod_nonneg {K : Type} [LinearOrderedField K] [FloorRing K]
    (x y : K) (hy : 0 < y) : 0 ≤ glslMod x y := by
  have h1 : ((⌊x / y⌋ : ℤ) : K) ≤ x / y := Int.floor_le _
  have h2 : y * ((⌊x / y⌋ : ℤ) : K) ≤ y * (x / y) :=
    mul_le_mul_of_nonneg_left h1 hy.le
  have h3 : y * (x / y) = x := by
    rw [mul_comm, div_mul_cancel₀ x hy.ne']
  rw [glslMod]
  linarith

/-- GLSL mod is below a positive modulus. -/
theorem glslMod_lt {K : Type} [LinearOrderedField K] [FloorRing K]
    (x y : K) (hy : 0 < y) : glslMod x y < y := by
  have h1 : x / y < ((⌊x / y⌋ : ℤ) : K) + 1 := Int.lt_floor_add_one _
  have h2 : y * (x / y) < y * (((⌊x / y⌋ : ℤ) : K) + 1) :=
    (mul_lt_mul_left hy).mpr h1
  have h3 : y * (x / y) = x := by
    rw [mul_comm, div_mul_cancel₀ x hy.ne']
  rw [glslMod]
  nlinarith

/-- GLSL int conversion is the identity on integer values. -/
theorem glslInt_intCast {K : Type} [LinearOrderedField K] [FloorRing K]
    (m : ℤ) : glslInt ((m : K)) = m := by
  rw [glslInt]
  split
  · exact Int.floor_intCast m
  · rw [← Int.cast_neg, Int.floor_intCast]
    omega

/-- Sampling a constant-valued texture returns that constant. -/
theorem sampleVolume_const {K : Type} [LinearOrderedField K] [FloorRing K]
    (u : VolumeUniforms K) (c : K) (pos : Vec3 K) :
    sampleVolume u (fun _ => c) pos = c := by
  rw [sampleVolume]
  dsimp only
  split
  · rfl
  · ring

/-- Branch structure of sampleVolume, with all local bindings inlined. -/
theorem sampleVolume_spec {K : Type} [LinearOrderedField K] [FloorRing K]
    (u : VolumeUniforms K) (tex : K × K → K) (pos : Vec3 K) :
    sampleVolume u tex pos =
      if ((⌊pos.z * ((u.uNumSlices - 1 : ℤ) : K)⌋ : ℤ) : K)
          = ((⌈pos.z * ((u.uNumSlices - 1 : ℤ) : K)⌉ : ℤ) : K) then
        tex (sliceSampleUV u pos ((⌊pos.z * ((u.uNumSlices - 1 : ℤ) : K)⌋ : ℤ) : K))
      else
        tex (sliceSampleUV u pos ((⌈pos.z * ((u.uNumSlices - 1 : ℤ) : K)⌉ : ℤ) : K))
            * (1 - (((⌈pos.z * ((u.uNumSlices - 1 : ℤ) : K)⌉ : ℤ) : K)
                - pos.z * ((u.uNumSlices - 1 : ℤ) : K)))
          + tex (sliceSampleUV u pos ((⌊pos.z * ((u.uNumSlices - 1 : ℤ) : K)⌋ : ℤ) : K))
            * (((⌈pos.z * ((u.uNumSlices - 1 : ℤ) : K)⌉ : ℤ) : K)
                - pos.z * ((u.uNumSlices - 1 : ℤ) : K)) :=
  rfl

/-- C1: for a position with pos.z in [0,1] and at least two slices, with
s = pos.z * (sliceCount - 1), sampleVolume returns the single below-slice
sample when s is exactly integral (sliceBelow = sliceAbove), and otherwise
returns valueBelow * a + valueAbove * (1 - a) with a = sliceAbove - s; when
the fractional part of s is 0.5 the result is the arithmetic mean of the two
adjacent slice samples. -/
theorem C1_sampleVolume_interpolation {K : Type} [LinearOrderedField K] [FloorRing K]
    (u : VolumeUniforms K) (tex : K × K → K) (pos : Vec3 K)
    (hn : 2 ≤ u.uNumSlices) (hz0 : 0 ≤ pos.z) (hz1 : pos.z ≤ 1)
    (s : K) (hs : s = pos.z * ((u.uNumSlices - 1 : ℤ) : K)) :
    (⌊s⌋ = ⌈s⌉ → sampleVolume u tex pos = tex (sliceSampleUV u pos ((⌊s⌋ : ℤ) : K)))
    ∧ (⌊s⌋ ≠ ⌈s⌉ → sampleVolume u tex pos
        = tex (sliceSampleUV u pos ((⌊s⌋ : ℤ) : K)) * (((⌈s⌉ : ℤ) : K) - s)
          + tex (sliceSampleUV u pos ((⌈s⌉ : ℤ) : K)) * (1 - (((⌈s⌉ : ℤ) : K) - s)))
    ∧ (Int.fract s = 1 / 2 → sampleVolume u tex pos
        = (tex (sliceSampleUV u pos ((⌊s⌋ : ℤ) : K))
            + tex (sliceSampleUV u pos ((⌈s⌉ : ℤ) : K))) / 2) := by
  subst hs
  rw [sampleVolume_spec]
  set s : K := pos.z * ((u.uNumSlices - 1 : ℤ) : K) with hsdef
  refine ⟨?_, ?_, ?_⟩
  · intro h
    rw [if_pos (by exact_mod_cast h)]
  · intro h
    rw [if_neg (fun hx => h (by exact_mod_cast hx))]
    ring
  · intro hf
    have hf2 : s - ((⌊s⌋ : ℤ) : K) = 1 / 2 := by
      rw [Int.self_sub_floor]
      exact hf
    have hceil : ⌈s⌉ = ⌊s⌋ + 1 := by
      rw [Int.ceil_eq_iff]
      constructor
      · push_cast
        linarith
      · push_cast
        linarith
    have hne : ¬ ((⌊s⌋ : K) = ((⌈s⌉ : ℤ) : K)) := by
      rw [hceil]
      intro hx
      have : (⌊s⌋ : ℤ) = ⌊s⌋ + 1 := by exact_mod_cast hx
      omega
    rw [if_neg hne]
    have ha : ((⌈s⌉ : ℤ) : K) - s = 1 / 2 := by
      rw [hceil]
      push_cast
      linarith
    rw [ha]
    ring

/-- Witness for C1: at pos.z = 1/2 with 4 slices, s = 3/2 lies midway between
slices 1 and 2 and the sample is the mean of the two slice samples. -/
theorem C1_sampleVolume_interpolation_witness :
    sampleVolume atlasUniformsQ atlasTexQ ⟨0, 0, 1/2⟩ = 3/16 := by
  have hfl : ⌊(3/2 : ℚ)⌋ = 1 := by
    rw [Int.floor_eq_iff]
    norm_num
  have hcl : ⌈(3/2 : ℚ)⌉ = 2 := by
    rw [Int.ceil_eq_iff]
    norm_num
  have hfr : Int.fract (3/2 : ℚ) = 1/2 := by
    unfold Int.fract
    rw [hfl]
    norm_num
  have h := (C1_sampleVolume_interpolation atlasUniformsQ atlasTexQ ⟨0, 0, 1/2⟩
    (by norm_num [atlasUniformsQ]) (by norm_num) (by norm_num) (3/2)
    (by norm_num [atlasUniformsQ])).2.2 hfr
  rw [h, hfl, hcl]
  have ht1 : Int.tdiv (1 : ℤ) 2 = 0 := by decide
  have ht2 : Int.tdiv (2 : ℤ) 2 = 1 := by decide
  have hf1 : ⌊(1 : ℚ) / 2⌋ = 0 := by
    rw [Int.floor_eq_iff]
    norm_num
  simp only [sliceSampleUV, sliceTileUV, glslMod, glslInt, atlasUniformsQ, atlasTexQ]
  norm_num [ht1, ht2, hf1]

/-- Truncating and Euclidean division agree on nonnegative operands. -/
theorem tdiv_eq_ediv_of_nonneg {a b : ℤ} (h0 : 0 ≤ a) (hb : 0 ≤ b) :
    a.tdiv b = a / b := by
  lift a to ℕ using h0
  lift b to ℕ using hb
  rfl

/-- Tile origins of in-range slice indices stay inside the atlas grid. -/
theorem sliceTileUV_bounds {K : Type} [LinearOrderedField K] [FloorRing K]
    (u : VolumeUniforms K) (idx : ℤ)
    (h0 : 0 ≤ idx) (h1 : idx ≤ u.uNumSlices - 1) (hr : 1 ≤ u.uSlicesPerRow) :
    (0 ≤ (sliceTileUV u (idx : K)).1 ∧ (sliceTileUV u (idx : K)).1 < (u.uSlicesPerRow : K))
    ∧ (0 ≤ (sliceTileUV u (idx : K)).2
        ∧ (sliceTileUV u (idx : K)).2
            < ((⌈(u.uNumSlices : K) / (u.uSlicesPerRow : K)⌉ : ℤ) : K)) := by
  have hrZ : (0 : ℤ) < u.uSlicesPerRow := by omega
  have hrK : (0 : K) < (u.uSlicesPerRow : K) := by exact_mod_cast hrZ
  simp only [sliceTileUV]
  refine ⟨⟨glslMod_nonneg _ _ hrK, glslMod_lt _ _ hrK⟩, ?_⟩
  rw [glslInt_intCast, tdiv_eq_ediv_of_nonneg h0 hrZ.le]
  have hq0 : 0 ≤ idx / u.uSlicesPerRow := Int.ediv_nonneg h0 hrZ.le
  have hmul : (idx / u.uSlicesPerRow) * u.uSlicesPerRow ≤ idx := by
    have hdm := Int.ediv_add_emod idx u.uSlicesPerRow
    have hmod := Int.emod_nonneg idx (by omega : u.uSlicesPerRow ≠ 0)
    have hcomm : u.uSlicesPerRow * (idx / u.uSlicesPerRow)
        = (idx / u.uSlicesPerRow) * u.uSlicesPerRow := mul_comm _ _
    linarith
  have hqlt : idx / u.uSlicesPerRow < ⌈(u.uNumSlices : K) / (u.uSlicesPerRow : K)⌉ := by
    rw [Int.lt_ceil, lt_div_iff₀ hrK]
    have hZ : (idx / u.uSlicesPerRow) * u.uSlicesPerRow < u.uNumSlices := by omega
    exact_mod_cast hZ
  exact ⟨by exact_mod_cast hq0, by exact_mod_cast hqlt⟩

/-- C5: for at least two slices, at least one slice per row and a clamped
pos.z, both derived slice indices lie in [0, sliceCount - 1], and the tile
origin of any of sliceBelow, sliceAbove and sliceCount - 1 lies inside the
atlas grid [0, slicesPerRow) x [0, ceil(sliceCount / slicesPerRow)). -/
theorem C5_tile_origin_bounds {K : Type} [LinearOrderedField K] [FloorRing K]
    (u : VolumeUniforms K) (z : K)
    (hn : 2 ≤ u.uNumSlices) (hr : 1 ≤ u.uSlicesPerRow) (hz0 : 0 ≤ z) (hz1 : z ≤ 1)
    (idx : ℤ)
    (hidx : idx = ⌊z * ((u.uNumSlices - 1 : ℤ) : K)⌋
      ∨ idx = ⌈z * ((u.uNumSlices - 1 : ℤ) : K)⌉
      ∨ idx = u.uNumSlices - 1) :
    (0 ≤ idx ∧ idx ≤ u.uNumSlices - 1)
    ∧ (0 ≤ (sliceTileUV u (idx : K)).1 ∧ (sliceTileUV u (idx : K)).1 < (u.uSlicesPerRow : K))
    ∧ (0 ≤ (sliceTileUV u (idx : K)).2
        ∧ (sliceTileUV u (idx : K)).2
            < ((⌈(u.uNumSlices : K) / (u.uSlicesPerRow : K)⌉ : ℤ) : K)) := by
  have hm1 : (0 : K) ≤ ((u.uNumSlices - 1 : ℤ) : K) := by
    have : (0 : ℤ) ≤ u.uNumSlices - 1 := by omega
    exact_mod_cast this
  have hs0 : (0 : K) ≤ z * ((u.uNumSlices - 1 : ℤ) : K) := mul_nonneg hz0 hm1
  have hs1 : z * ((u.uNumSlices - 1 : ℤ) : K) ≤ ((u.uNumSlices - 1 : ℤ) : K) := by
    calc z * ((u.uNumSlices - 1 : ℤ) : K)
        ≤ 1 * ((u.uNumSlices - 1 : ℤ) : K) := mul_le_mul_of_nonneg_right hz1 hm1
      _ = ((u.uNumSlices - 1 : ℤ) : K) := one_mul _
  have hbounds : 0 ≤ idx ∧ idx ≤ u.uNumSlices - 1 := by
    rcases hidx with h | h | h
    · subst h
      constructor
      · exact Int.le_floor.mpr (by exact_mod_cast hs0)
      · have hf := Int.floor_le_floor hs1
        rwa [Int.floor_intCast] at hf
    · subst h
      constructor
      · exact Int.ceil_nonneg hs0
      · exact Int.ceil_le.mpr hs1
    · subst h
      omega
  exact ⟨hbounds, sliceTileUV_bounds u idx hbounds.1 hbounds.2 hr⟩

/-- Witness for C5: with 4 slices and 2 per row, the tile origin of the last
slice index 3 is inside the 2 x 2 atlas grid. -/
theorem C5_tile_origin_bounds_witness :
    (0 ≤ (atlasUniformsQ.uNumSlices - 1) ∧ atlasUniformsQ.uNumSlices - 1 ≤ atlasUniformsQ.uNumSlices - 1)
    ∧ (0 ≤ (sliceTileUV atlasUniformsQ ((atlasUniformsQ.uNumSlices - 1 : ℤ) : ℚ)).1
        ∧ (sliceTileUV atlasUniformsQ ((atlasUniformsQ.uNumSlices - 1 : ℤ) : ℚ)).1
            < (atlasUniformsQ.uSlicesPerRow : ℚ))
    ∧ (0 ≤ (sliceTileUV atlasUniformsQ ((atlasUniformsQ.uNumSlices - 1 : ℤ) : ℚ)).2
        ∧ (sliceTileUV atlasUniformsQ ((atlasUniformsQ.uNumSlices - 1 : ℤ) : ℚ)).2
            < ((⌈(atlasUniformsQ.uNumSlices : ℚ) / (atlasUniformsQ.uSlicesPerRow : ℚ)⌉ : ℤ) : ℚ)) :=
  C5_tile_origin_bounds atlasUniformsQ (1/2)
    (by norm_num [atlasUniformsQ]) (by norm_num [atlasUniformsQ]) (by norm_num) (by norm_num)
    (atlasUniformsQ.uNumSlices - 1) (Or.inr (Or.inr rfl))

/-- C6: one frame of draw() performs exactly three passes in the order
exit pass, entry pass, integration pass; both geometry passes run the
entry-exit program with the same matrix uniforms, the exit pass uses the
greater depth comparison with clear depth -1, and the entry pass uses the
less depth comparison with clear depth +1. -/
theorem C6_frame_passes {M : Type} (projection modelView : M) :
    framePasses projection modelView =
      [{ geometry := PassGeometry.domainCube, target := some FBId.exitpoints,
         depthComparison := some DepthComparison.greater, clearDepthValue := some (-1),
         program := some ProgId.entryExitPoints, matrices := some (projection, modelView) },
       { geometry := PassGeometry.domainCube, target := some FBId.entrypoints,
         depthComparison := some DepthComparison.less, clearDepthValue := some 1,
         program := some ProgId.entryExitPoints, matrices := some (projection, modelView) },
       { geometry := PassGeometry.viewportQuad, target := none,
         depthComparison := some DepthComparison.greater, clearDepthValue := some (-1),
         program := some ProgId.volume, matrices := none }] :=
  rfl

/-- C7: the domain cube extents are (1, sliceHeight / sliceWidth,
sliceCount / sliceWidth); for 128 x 128 x 114 they are (1, 1, 0.890625); the
normalized slice footprint is sliceWidth / atlasImageWidth by
sliceHeight / atlasImageHeight. -/
theorem C7_domain_metrics (sliceWidth sliceHeight slices atlasW atlasH : ℚ)
    (hw : 0 < sliceWidth) (hh : 0 < sliceHeight) (hs : 0 < slices)
    (haw : 0 < atlasW) (hah : 0 < atlasH) :
    cubeDimensions sliceWidth sliceHeight slices
        = { w := 1, h := sliceHeight / sliceWidth, d := slices / sliceWidth }
    ∧ cubeDimensions 128 128 114 = { w := 1, h := 1, d := 0.890625 }
    ∧ normalizedSliceWidth sliceWidth atlasW = sliceWidth / atlasW
    ∧ normalizedSliceHeight sliceHeight atlasH = sliceHeight / atlasH
    ∧ normalizedSliceWidth 128 atlasW = 128 / atlasW
    ∧ normalizedSliceHeight 128 atlasH = 128 / atlasH := by
  refine ⟨?_, ?_, rfl, rfl, rfl, rfl⟩
  · rw [cubeDimensions]
    norm_num [CubeDimensions.mk.injEq]
  · rw [cubeDimensions]
    norm_num [CubeDimensions.mk.injEq]

/-- Witness for C7 at the demo's parameters (sliceWidth 128, sliceHeight 128,
114 slices). -/
theorem C7_domain_metrics_witness :
    cubeDimensions 128 128 114 = { w := 1, h := 1, d := 0.890625 } :=
  (C7_domain_metrics 128 128 114 1408 1536 (by norm_num) (by norm_num) (by norm_num)
    (by norm_num) (by norm_num)).2.1

/-- C9 is refuted by the code: the VolumeCubeDomain constructor performs no
precondition check, and a degenerate request with a single slice and zero
slices per row is accepted and returns ordinary metadata. -/
theorem C9_no_precondition_check :
    VolumeCubeDomain.make 128 128 1 0
      = { sliceWidth := 128, sliceHeight := 128, slices := 1, slicesPerRow := 0,
          cubeDimensions := { w := 1, h := 1, d := 1 / 128 } } := by
  rw [VolumeCubeDomain.make, cubeDimensions]
  norm_num

/-- C8 is refuted by the code: in an environment where the context and the
float-texture extension are available but every program link fails, both
shader programs end up unlinked (after alert diagnostics), yet initGL still
returns true. -/
theorem C8_link_failure_initGL_true :
    initGL { contextAvailable := true, floatTextureExtension := true,
             compiles := fun _ => true, links := fun _ _ => false } = true
    ∧ (initShaders { contextAvailable := true, floatTextureExtension := true,
                     compiles := fun _ => true, links := fun _ _ => false }).map
        ShaderProgramState.linked = [false, false] :=
  ⟨rfl, rfl⟩

/-- C4: when the sampled entry or exit alpha is below 0.1, the integration
pass outputs fully transparent (0,0,0,0), independently of the volume
uniforms and texture (the ray integrator is not consulted). -/
theorem C4_ray_miss (u u2 : VolumeUniforms ℝ) (tex tex2 : ℝ × ℝ → ℝ)
    (entryPoint exitPoint : RGBA)
    (h : entryPoint.a < 0.1 ∨ exitPoint.a < 0.1) :
    volumeFsMain u tex entryPoint exitPoint = { r := 0, g := 0, b := 0, a := 0 }
    ∧ volumeFsMain u tex entryPoint exitPoint
        = volumeFsMain u2 tex2 entryPoint exitPoint := by
  have h1 : volumeFsMain u tex entryPoint exitPoint
      = { r := 0, g := 0, b := 0, a := 0 } := by
    rw [volumeFsMain, if_pos h]
  have h2 : volumeFsMain u2 tex2 entryPoint exitPoint
      = { r := 0, g := 0, b := 0, a := 0 } := by
    rw [volumeFsMain, if_pos h]
  exact ⟨h1, h1.trans h2.symm⟩

/-- Witness for C4: a ray whose entry sample has alpha 0 outputs vec4(0). -/
theorem C4_ray_miss_witness :
    volumeFsMain probeUniformsR zeroTexR missEntry hitExit
      = { r := 0, g := 0, b := 0, a := 0 } :=
  (C4_ray_miss probeUniformsR probeUniformsR2 zeroTexR oneTexR missEntry hitExit
    (Or.inl (by norm_num [missEntry]))).1

/-- C2: whenever the loop guard passes, the iteration applies one composite
step, the per-step alpha is 1 - exp(-stepSize * absorption * densityScale)
with stepSize 0.01 and densityScale 40, the color accumulates as
sampleColor * stepAlpha * (1 - alpha) + color, the alpha accumulates as
stepAlpha * (1 - alpha) + alpha, and depth advances by the step size. -/
theorem C2_step_update (u : VolumeUniforms ℝ) (tex : ℝ × ℝ → ℝ) (e v : Vec3 ℝ)
    (t : ℝ) (n : ℕ) (st : IntegrateState)
    (h : ¬(st.depth > t ∨ st.color.a > 0.98)) :
    integrateLoop u tex e v t (n + 1) st
        = integrateLoop u tex e v t n (integrateStep u tex e v st)
    ∧ (integrateStep u tex e v st).color.r
        = (transferColor (stepSample u tex e v st)).x
            * (1 - Real.exp (-(0.01 * tfAbsorbtion (stepSample u tex e v st) * 40)))
            * (1 - st.color.a) + st.color.r
    ∧ (integrateStep u tex e v st).color.g
        = (transferColor (stepSample u tex e v st)).y
            * (1 - Real.exp (-(0.01 * tfAbsorbtion (stepSample u tex e v st) * 40)))
            * (1 - st.color.a) + st.color.g
    ∧ (integrateStep u tex e v st).color.b
        = (transferColor (stepSample u tex e v st)).z
            * (1 - Real.exp (-(0.01 * tfAbsorbtion (stepSample u tex e v st) * 40)))
            * (1 - st.color.a) + st.color.b
    ∧ (integrateStep u tex e v st).color.a
        = (1 - Real.exp (-(0.01 * tfAbsorbtion (stepSample u tex e v st) * 40)))
            * (1 - st.color.a) + st.color.a
    ∧ (integrateStep u tex e v st).depth = st.depth + 0.01 := by
  have harg : -(0.01 : ℝ) * tfAbsorbtion (stepSample u tex e v st) * 40
      = -(0.01 * tfAbsorbtion (stepSample u tex e v st) * 40) := by ring
  refine ⟨?_, ?_, ?_, ?_, ?_, rfl⟩
  · rw [integrateLoop, if_neg h]
  all_goals simp only [integrateStep, tfOpacity, harg]

/-- Witness for C2: one step from the initial state advances depth by 0.01. -/
theorem C2_step_update_witness :
    (integrateStep probeUniformsR halfTexR zeroVec3R unitXVec3R initialIntegrateState).depth
      = initialIntegrateState.depth + 0.01 :=
  (C2_step_update probeUniformsR halfTexR zeroVec3R unitXVec3R 1 5 initialIntegrateState
    (by norm_num [initialIntegrateState])).2.2.2.2.2

/-- The clamped transfer-function absorption is never negative. -/
theorem tfAbsorbtion_nonneg (s : ℝ) : 0 ≤ tfAbsorbtion s := by
  rw [tfAbsorbtion]
  split
  · exact le_refl 0
  · next h => linarith [not_lt.mp h]

/-- The per-step compositing opacity is nonnegative. -/
theorem tfOpacity_nonneg (s : ℝ) : 0 ≤ tfOpacity s := by
  rw [tfOpacity]
  have h1 : Real.exp (-(0.01 : ℝ) * tfAbsorbtion s * 40) ≤ 1 := by
    rw [← Real.exp_zero]
    apply Real.exp_le_exp.mpr
    nlinarith [tfAbsorbtion_nonneg s]
  linarith

/-- The per-step compositing opacity is strictly below one. -/
theorem tfOpacity_lt_one (s : ℝ) : tfOpacity s < 1 := by
  rw [tfOpacity]
  have := Real.exp_pos (-(0.01 : ℝ) * tfAbsorbtion s * 40)
  linarith

/-- The front-to-back alpha update is monotone and maps [0,1] into [0,1]. -/
theorem compositeAlpha_bounds (o a : ℝ) (ho0 : 0 ≤ o) (ho1 : o < 1)
    (ha0 : 0 ≤ a) (ha1 : a ≤ 1) :
    a ≤ o * (1 - a) + a ∧ 0 ≤ o * (1 - a) + a ∧ o * (1 - a) + a ≤ 1 :=
  ⟨by nlinarith, by nlinarith, by nlinarith⟩

/-- Alpha component produced by one integration step. -/
theorem integrateStep_alpha (u : VolumeUniforms ℝ) (tex : ℝ × ℝ → ℝ)
    (e v : Vec3 ℝ) (st : IntegrateState) :
    (integrateStep u tex e v st).color.a
      = tfOpacity (stepSample u tex e v st) * (1 - st.color.a) + st.color.a :=
  rfl

/-- The accumulated alpha stays inside [0,1] along the integration loop. -/
theorem integrateLoop_alpha_bounds (u : VolumeUniforms ℝ) (tex : ℝ × ℝ → ℝ)
    (e v : Vec3 ℝ) (t : ℝ) :
    ∀ (n : ℕ) (st : IntegrateState), 0 ≤ st.color.a → st.color.a ≤ 1 →
      0 ≤ (integrateLoop u tex e v t n st).color.a
        ∧ (integrateLoop u tex e v t n st).color.a ≤ 1 := by
  intro n
  induction n with
  | zero => exact fun st h0 h1 => ⟨h0, h1⟩
  | succ n ih =>
    intro st h0 h1
    rw [integrateLoop]
    split
    · exact ⟨h0, h1⟩
    · have hb := compositeAlpha_bounds (tfOpacity (stepSample u tex e v st)) st.color.a
        (tfOpacity_nonneg _) (tfOpacity_lt_one _) h0 h1
      exact ih _ (by rw [integrateStep_alpha]; exact hb.2.1)
        (by rw [integrateStep_alpha]; exact hb.2.2)

/-- A state satisfying the break condition is a fixed point of the loop. -/
theorem integrateLoop_break (u : VolumeUniforms ℝ) (tex : ℝ × ℝ → ℝ)
    (e v : Vec3 ℝ) (t : ℝ) (st : IntegrateState)
    (h : st.depth > t ∨ st.color.a > 0.98) :
    ∀ m : ℕ, integrateLoop u tex e v t m st = st := by
  intro m
  cases m with
  | zero => rfl
  | succ m => rw [integrateLoop, if_pos h]

/-- Peeling the last iteration of the bounded loop. -/
theorem integrateLoop_succ_shift (u : VolumeUniforms ℝ) (tex : ℝ × ℝ → ℝ)
    (e v : Vec3 ℝ) (t : ℝ) :
    ∀ (n : ℕ) (st : IntegrateState),
      integrateLoop u tex e v t (n + 1) st
        = if (integrateLoop u tex e v t n st).depth > t
            ∨ (integrateLoop u tex e v t n st).color.a > 0.98
          then integrateLoop u tex e v t n st
          else integrateStep u tex e v (integrateLoop u tex e v t n st) := by
  intro n
  induction n with
  | zero =>
    intro st
    show integrateLoop u tex e v t (0 + 1) st
      = if st.depth > t ∨ st.color.a > 0.98 then st
        else integrateStep u tex e v st
    rw [integrateLoop]
    rfl
  | succ n ih =>
    intro st
    by_cases h : st.depth > t ∨ st.color.a > 0.98
    · rw [integrateLoop_break u tex e v t st h (n + 1 + 1),
          integrateLoop_break u tex e v t st h (n + 1), if_pos h]
    · have hL : integrateLoop u tex e v t (n + 1 + 1) st
          = integrateLoop u tex e v t (n + 1) (integrateStep u tex e v st) := by
        rw [integrateLoop, if_neg h]
      have hR : integrateLoop u tex e v t (n + 1) st
          = integrateLoop u tex e v t n (integrateStep u tex e v st) := by
        rw [integrateLoop, if_neg h]
      rw [hL, hR, ih (integrateStep u tex e v st)]

/-- The accumulated alpha never decreases from one iteration to the next. -/
theorem integrateLoop_alpha_monotone (u : VolumeUniforms ℝ) (tex : ℝ × ℝ → ℝ)
    (e v : Vec3 ℝ) (t : ℝ) (n : ℕ) (st : IntegrateState)
    (h0 : 0 ≤ st.color.a) (h1 : st.color.a ≤ 1) :
    (integrateLoop u tex e v t n st).color.a
      ≤ (integrateLoop u tex e v t (n + 1) st).color.a := by
  rw [integrateLoop_succ_shift]
  split
  · exact le_refl _
  · rw [integrateStep_alpha]
    have hb := integrateLoop_alpha_bounds u tex e v t n st h0 h1
    exact (compositeAlpha_bounds _ _ (tfOpacity_nonneg _) (tfOpacity_lt_one _) hb.1 hb.2).1

/-- The loop never executes more bodies than its fuel allows. -/
theorem loopSteps_le (u : VolumeUniforms ℝ) (tex : ℝ × ℝ → ℝ)
    (e v : Vec3 ℝ) (t : ℝ) :
    ∀ (n : ℕ) (st : IntegrateState), loopSteps u tex e v t n st ≤ n := by
  intro n
  induction n with
  | zero => exact fun st => le_refl 0
  | succ n ih =>
    intro st
    rw [loopSteps]
    split
    · omega
    · have := ih (integrateStep u tex e v st)
      omega

/-- C3 (amended): over the iterations of integrateVolume the accumulated
alpha is non-decreasing, the loop executes at most the hard cap of 10000
steps (integrateVolume runs the loop with exactly that fuel), and once the
accumulated alpha strictly exceeds 0.98 the integrator terminates without
any further change to the accumulated color. -/
theorem C3_monotone_cap_termination (u : VolumeUniforms ℝ) (tex : ℝ × ℝ → ℝ)
    (e v ep xp : Vec3 ℝ) (t : ℝ) (n m : ℕ) (st : IntegrateState)
    (hst : 0.98 < st.color.a) :
    (integrateLoop u tex e v t n initialIntegrateState).color.a
        ≤ (integrateLoop u tex e v t (n + 1) initialIntegrateState).color.a
    ∧ loopSteps u tex e v t 10000 initialIntegrateState ≤ 10000
    ∧ integrateVolume u tex ep xp
        = (integrateLoop u tex ep
            ⟨(xp.x - ep.x) / glslLength ⟨xp.x - ep.x, xp.y - ep.y, xp.z - ep.z⟩,
             (xp.y - ep.y) / glslLength ⟨xp.x - ep.x, xp.y - ep.y, xp.z - ep.z⟩,
             (xp.z - ep.z) / glslLength ⟨xp.x - ep.x, xp.y - ep.y, xp.z - ep.z⟩⟩
            (glslLength ⟨xp.x - ep.x, xp.y - ep.y, xp.z - ep.z⟩)
            10000 initialIntegrateState).color
    ∧ integrateLoop u tex e v t m st = st := by
  refine ⟨?_, loopSteps_le u tex e v t 10000 _, rfl,
    integrateLoop_break u tex e v t st (Or.inr hst) m⟩
  exact integrateLoop_alpha_monotone u tex e v t n initialIntegrateState
    (by norm_num [initialIntegrateState]) (by norm_num [initialIntegrateState])

/-- Witness for C3 (amended): from a state with alpha 0.99 the loop
terminates immediately, leaving the state unchanged. -/
theorem C3_monotone_cap_termination_witness :
    integrateLoop probeUniformsR halfTexR zeroVec3R unitXVec3R 1 3 overOpaqueState
      = overOpaqueState :=
  (C3_monotone_cap_termination probeUniformsR halfTexR zeroVec3R unitXVec3R
    zeroVec3R unitXVec3R 1 2 3 overOpaqueState
    (by norm_num [overOpaqueState])).2.2.2

/-- Counterexample to C3 as stated: a loop state whose accumulated alpha has
reached the 0.98 threshold exactly is not a termination point; the break
condition of the code is the strict comparison alpha > 0.98, so one more
iteration executes and changes the accumulated color. -/
theorem C3_reached_threshold_counterexample :
    nearOpaqueState.color.a ≥ 0.98
    ∧ integrateLoop probeUniformsR halfTexR zeroVec3R unitXVec3R 1 1 nearOpaqueState
        ≠ nearOpaqueState := by
  have hsample : stepSample probeUniformsR halfTexR zeroVec3R unitXVec3R nearOpaqueState
      = 0.5 := by
    simp only [stepSample, halfTexR]
    exact sampleVolume_const _ _ _
  have hpow : (0.25 : ℝ) ≤ (0.5 : ℝ) ^ (1.1 : ℝ) := by
    have h2 : (0.5 : ℝ) ^ (2 : ℝ) = 0.25 := by
      rw [show (2 : ℝ) = ((2 : ℕ) : ℝ) by norm_num, Real.rpow_natCast]
      norm_num
    rw [← h2]
    exact Real.rpow_le_rpow_of_exponent_ge (by norm_num) (by norm_num) (by norm_num)
  have habs : tfAbsorbtion 0.5 = (0.5 : ℝ) ^ (1.1 : ℝ) := by
    rw [tfAbsorbtion, if_neg (not_lt.mpr (by linarith))]
  have habs0 : 0 < tfAbsorbtion 0.5 := by
    rw [habs]
    linarith
  have hexp : Real.exp (-(0.01 : ℝ) * tfAbsorbtion 0.5 * 40) < 1 := by
    rw [← Real.exp_zero]
    apply Real.exp_lt_exp.mpr
    nlinarith
  have hopac : 0 < tfOpacity 0.5 := by
    rw [tfOpacity]
    linarith
  have htc : (transferColor (0.5 : ℝ)).x = 0.6 := by
    rw [transferColor, if_pos (by norm_num)]
  have hcond : ¬(nearOpaqueState.depth > (1 : ℝ) ∨ nearOpaqueState.color.a > 0.98) := by
    norm_num [nearOpaqueState]
  have hloop : integrateLoop probeUniformsR halfTexR zeroVec3R unitXVec3R 1 1 nearOpaqueState
      = integrateStep probeUniformsR halfTexR zeroVec3R unitXVec3R nearOpaqueState := by
    show integrateLoop probeUniformsR halfTexR zeroVec3R unitXVec3R 1 (0 + 1) nearOpaqueState
      = integrateStep probeUniformsR halfTexR zeroVec3R unitXVec3R nearOpaqueState
    rw [integrateLoop, if_neg hcond]
    rfl
  have hstep : (integrateStep probeUniformsR halfTexR zeroVec3R unitXVec3R
      nearOpaqueState).color.r = 0.6 * tfOpacity 0.5 * (1 - 0.98) + 0 := by
    simp only [integrateStep]
    rw [hsample, htc]
    simp only [nearOpaqueState]
  refine ⟨by norm_num [nearOpaqueState], ?_⟩
  intro hEq
  have h0 : (0.6 : ℝ) * tfOpacity 0.5 * (1 - 0.98) + 0 = 0 := by
    rw [← hstep, ← hloop, hEq]
    norm_num [nearOpaqueState]
  nlinarith

/-- C10: the accumulated alpha starts at 0 and stays inside [0,1]: the
transfer-function absorption is nonnegative, the per-step opacity
1 - exp(-step * absorption * 40) lies in [0,1), and the front-to-back update
stepAlpha * (1 - alpha) + alpha maps [0,1] into [0,1], for any volume whose
samples lie in [0,1]. -/
theorem C10_alpha_invariant (u : VolumeUniforms ℝ) (tex : ℝ × ℝ → ℝ)
    (htex : ∀ p : ℝ × ℝ, 0 ≤ tex p ∧ tex p ≤ 1)
    (e v : Vec3 ℝ) (t s a : ℝ) (ha0 : 0 ≤ a) (ha1 : a ≤ 1) (n : ℕ) :
    initialIntegrateState.color.a = 0
    ∧ 0 ≤ tfAbsorbtion s
    ∧ (0 ≤ tfOpacity s ∧ tfOpacity s < 1)
    ∧ (0 ≤ tfOpacity s * (1 - a) + a ∧ tfOpacity s * (1 - a) + a ≤ 1)
    ∧ (0 ≤ (integrateLoop u tex e v t n initialIntegrateState).color.a
        ∧ (integrateLoop u tex e v t n initialIntegrateState).color.a ≤ 1) := by
  have hb := compositeAlpha_bounds (tfOpacity s) a
    (tfOpacity_nonneg s) (tfOpacity_lt_one s) ha0 ha1
  exact ⟨rfl, tfAbsorbtion_nonneg s, ⟨tfOpacity_nonneg s, tfOpacity_lt_one s⟩,
    ⟨hb.2.1, hb.2.2⟩,
    integrateLoop_alpha_bounds u tex e v t n initialIntegrateState
      (by norm_num [initialIntegrateState]) (by norm_num [initialIntegrateState])⟩

/-- Witness for C10: after two iterations on the zero volume the accumulated
alpha is still inside [0,1]. -/
theorem C10_alpha_invariant_witness :
    0 ≤ (integrateLoop probeUniformsR zeroTexR zeroVec3R unitXVec3R 1 2
        initialIntegrateState).color.a
    ∧ (integrateLoop probeUniformsR zeroTexR zeroVec3R unitXVec3R 1 2
        initialIntegrateState).color.a ≤ 1 :=
  (C10_alpha_invariant probeUniformsR zeroTexR
    (fun _ => ⟨by norm_num [zeroTexR], by norm_num [zeroTexR]⟩)
    zeroVec3R unitXVec3R 1 (1/2) (1/2) (by norm_num) (by norm_num) 2).2.2.2.2
